import Mathlib

/-!
Verification of the SteamAPIs Python client (src/main.py) against its
natural-language specification.  The client is embedded shallowly: strings
stay strings, Python dicts of query parameters become association lists,
JSON payloads become an inductive `Json` type, the HTTP transport becomes an
explicit `HttpResponse` input, and exceptions become an `Except` result over
an inductive error hierarchy mirroring the module's exception classes.
-/

/-- JSON values, the payloads this client passes through unchanged.
Numbers are modelled as integers; no claim distinguishes fractional values. -/
inductive Json where
  | null : Json
  | bool (b : Bool) : Json
  | num (n : Int) : Json
  | str (s : String) : Json
  | arr (xs : List Json) : Json
  | obj (fs : List (String × Json)) : Json

/-- Values admissible in a query-parameter dict: the source only ever puts
strings and ints there. -/
inductive ParamVal where
  | str (s : String) : ParamVal
  | int (n : Int) : ParamVal
deriving DecidableEq

/-- A query-parameter dict, as an insertion-ordered association list. -/
abbrev Params : Type := List (String × ParamVal)

/-- Dict lookup on an association list (first binding wins, as in a Python
dict built by successive insertions of distinct keys). -/
def lookupP (k : String) : List (String × ParamVal) → Option ParamVal
  | [] => none
  | (k₁, v) :: rest => if k = k₁ then some v else lookupP k rest

/-- The exception hierarchy of src/main.py lines 26-43: `APIKeyError`,
`APIResponseError` and `RateLimitError`, all under `SteamAPIsError`.
`APIResponseError` wraps its underlying cause. -/
inductive RequestFailure where
  /-- The `requests.exceptions.HTTPError` raised by `raise_for_status`, carrying
  the offending status code in its message. -/
  | httpError (status : Nat) : RequestFailure
  /-- any other `requests.exceptions.RequestException`
  (connection failure, timeout, ...). -/
  | transportError (msg : String) : RequestFailure
  /-- A `json.JSONDecodeError` from `response.json()` on a malformed body. -/
  | jsonDecodeError : RequestFailure
deriving DecidableEq

inductive SteamAPIsError where
  | apiKeyError (msg : String) : SteamAPIsError
  | apiResponseError (cause : RequestFailure) : SteamAPIsError
  | rateLimitError (msg : String) : SteamAPIsError
deriving DecidableEq

/-- The result of the transport layer's attempt to parse the body as JSON. -/
inductive BodyParse where
  | ok (j : Json) : BodyParse
  | malformed : BodyParse

/-- An HTTP response as `_make_request` observes it: a status code and a
body that either parses as JSON or does not. -/
structure HttpResponse where
  status_code : Nat
  body : BodyParse

/-- The `requests.Session` created in `__init__` (src/main.py lines 78-82):
default params holding the API key, plus an open/closed state for the
connection pool it owns. -/
structure Session where
  params : List (String × ParamVal)
  opened : Bool
deriving DecidableEq

/-- The client object: stored base URL (trailing slashes stripped), timeout,
and the persistent session. -/
structure SteamAPIs where
  base_url : String
  timeout : Int
  session : Session
deriving DecidableEq

/-- Python `str.rstrip(c)`: drop all trailing occurrences of `c`. -/
def rstripChar (c : Char) (s : String) : String :=
  String.mk ((s.data.reverse.dropWhile (fun x => x = c)).reverse)

/-- Embedding of `SteamAPIs.__init__` (src/main.py lines 59-84): an empty key raises
`APIKeyError` before the base URL is stored or the session is created;
otherwise the client is built with the key as a session default parameter.
The `.error` branch carries no `SteamAPIs` value, so no session exists. -/
def SteamAPIs.init (api_key : String) (base_url : String) (timeout : Int) :
    Except SteamAPIsError SteamAPIs :=
  if api_key = "" then
    .error (.apiKeyError "API key is required")
  else
    .ok { base_url := rstripChar '/' base_url
          timeout := timeout
          session := { params := [("api_key", .str api_key)], opened := true } }

/-- The response-handling tail of `_make_request` (src/main.py lines
116-131): a 429 raises `RateLimitError` before anything else; then
`response.raise_for_status()` raises `requests.HTTPError` exactly for
statuses 400-599, which the `except RequestException` clause converts to
`APIResponseError`; any other status reaches `response.json()`, whose
decode failure also becomes `APIResponseError`. -/
def handle_response (resp : HttpResponse) : Except SteamAPIsError Json :=
  if resp.status_code = 429 then
    .error (.rateLimitError "Rate limit exceeded. Please try again later.")
  else if 400 ≤ resp.status_code ∧ resp.status_code < 600 then
    .error (.apiResponseError (.httpError resp.status_code))
  else
    match resp.body with
    | .ok j => .ok j
    | .malformed => .error (.apiResponseError .jsonDecodeError)

/-! ## URL joining

`_make_request` computes the target URL with `urllib.parse.urljoin`
(src/main.py line 105).  The model below covers urljoin restricted to the
forms this client uses: an absolute hierarchical base of shape
`scheme://netloc[/path]` and a target without scheme, query or fragment.
Every endpoint string built in src/main.py is an absolute-path reference
(it starts with a single '/'). -/

/-- Split a character list at the first occurrence of "://", returning the
scheme (before) and the remainder (after). -/
def splitScheme : List Char → Option (List Char × List Char)
  | [] => none
  | c :: rest =>
    if c = ':' ∧ rest.take 2 = ['/', '/'] then
      some ([], rest.drop 2)
    else
      match splitScheme rest with
      | some (pre, post) => some (c :: pre, post)
      | none => none

/-- The base path up to and including its last '/', used by urljoin's
relative-reference branch (not exercised by this client's endpoints). -/
def dirPart (path : List Char) : List Char :=
  match (path.reverse.dropWhile (fun c => c != '/')).reverse with
  | [] => ['/']
  | p => p

/-- Model of `urllib.parse.urljoin` on character lists, restricted as described
above: a target starting with "//" keeps only the base scheme; a target
starting with a single '/' replaces the base path entirely (keeping scheme
and netloc); other targets resolve relative to the base path's directory. -/
def urljoinL (base url : List Char) : List Char :=
  match splitScheme base with
  | none => url
  | some (scheme, rest) =>
    let netloc := rest.takeWhile (fun c => c != '/')
    let path := rest.dropWhile (fun c => c != '/')
    match url with
    | [] => base
    | c :: rest₂ =>
      if c = '/' then
        match rest₂ with
        | c₂ :: _ =>
          if c₂ = '/' then scheme ++ (':' :: url)
          else scheme ++ [':', '/', '/'] ++ netloc ++ url
        | [] => scheme ++ [':', '/', '/'] ++ netloc ++ url
      else scheme ++ [':', '/', '/'] ++ netloc ++ dirPart path ++ url

/-- Model of `urllib.parse.urljoin` on strings. -/
def urljoin (base url : String) : String :=
  String.mk (urljoinL base.data url.data)

/-! ## Percent-encoding

The item-name endpoints call `urllib.parse.quote(market_hash_name, safe='')`
(src/main.py lines 249, 271, 341, 364).  Python strings are embedded as
their UTF-8 byte sequences; `quote` and `unquote` are modelled at the byte
level, which is exactly how Python processes them. -/

/-- The bytes `urllib.parse.quote` never encodes: ALPHA, DIGIT, and
'-' '.' '_' '~'.  The client passes `safe=''`, so nothing else is exempt. -/
def isSafeByte (b : Nat) : Prop :=
  (48 ≤ b ∧ b ≤ 57) ∨ (65 ≤ b ∧ b ≤ 90) ∨ (97 ≤ b ∧ b ≤ 122) ∨
    b = 45 ∨ b = 46 ∨ b = 95 ∨ b = 126

instance (b : Nat) : Decidable (isSafeByte b) := by
  unfold isSafeByte
  infer_instance

/-- The byte of the uppercase hexadecimal digit for `d < 16`. -/
def hexDigit (d : Nat) : Nat :=
  if d < 10 then 48 + d else 55 + d

/-- Model of `urllib.parse.quote(s, safe='')` at the byte level: safe bytes pass
through, every other byte becomes '%' (37) plus two uppercase hex digits. -/
def quoteBytes : List Nat → List Nat
  | [] => []
  | b :: rest =>
    if isSafeByte b then b :: quoteBytes rest
    else 37 :: hexDigit (b / 16) :: hexDigit (b % 16) :: quoteBytes rest

/-- Value of a hexadecimal digit byte; `unquote` accepts both cases. -/
def hexVal (b : Nat) : Option Nat :=
  if 48 ≤ b ∧ b ≤ 57 then some (b - 48)
  else if 65 ≤ b ∧ b ≤ 70 then some (b - 55)
  else if 97 ≤ b ∧ b ≤ 102 then some (b - 87)
  else none

/-- Model of `urllib.parse.unquote` at the byte level: every '%' followed by two hex
digits decodes to the corresponding byte; any other byte (including a '%'
not followed by two hex digits) passes through unchanged. -/
def unquoteBytes : List Nat → List Nat
  | [] => []
  | b :: rest =>
    if b = 37 then
      match rest with
      | b₁ :: b₂ :: rest₂ =>
        match hexVal b₁, hexVal b₂ with
        | some hi, some lo => (16 * hi + lo) :: unquoteBytes rest₂
        | _, _ => b :: unquoteBytes (b₁ :: b₂ :: rest₂)
      | [] => [b]
      | [b₁] => b :: unquoteBytes [b₁]
    else b :: unquoteBytes rest

/-- UTF-8 encoding of a single character. -/
def utf8Bytes (c : Char) : List Nat :=
  let n := c.toNat
  if n < 128 then [n]
  else if n < 2048 then [192 + n / 64, 128 + n % 64]
  else if n < 65536 then [224 + n / 4096, 128 + (n / 64) % 64, 128 + n % 64]
  else [240 + n / 262144, 128 + (n / 4096) % 64, 128 + (n / 64) % 64, 128 + n % 64]

/-- A Python string viewed as its UTF-8 bytes. -/
def strBytes (s : String) : List Nat :=
  s.data.flatMap utf8Bytes

/-- Model of `urllib.parse.quote(s, safe='')` on strings.  The output bytes are all
ASCII, so reading them back as characters is exact. -/
def pyQuote (s : String) : String :=
  String.mk ((quoteBytes (strBytes s)).map Char.ofNat)

/-! ## The request layer -/

/-- The request `_make_request` hands to `self.session.request`
(src/main.py lines 108-114): URL computed by `urljoin(self.base_url,
endpoint)`, the caller's query params and JSON body forwarded as given
(`params=None` is embedded as the empty list), and the configured timeout. -/
structure HttpRequest where
  method : String
  url : String
  params : Params
  jsonBody : Option Json
  timeout : Int

/-- The request-building half of `_make_request` (src/main.py lines
104-114). -/
def SteamAPIs.requestOf (c : SteamAPIs) (method endpoint : String)
    (params : Params) (data : Option Json) : HttpRequest :=
  { method := method
    url := urljoin c.base_url endpoint
    params := params
    jsonBody := data
    timeout := c.timeout }

/-- Embedding of `_make_request` in full (src/main.py lines 86-131): the pair of the
request issued and the value returned or error raised, with the
transport's response supplied as an explicit input. -/
def SteamAPIs.make_request (c : SteamAPIs) (method endpoint : String)
    (params : Params) (data : Option Json) (resp : HttpResponse) :
    HttpRequest × Except SteamAPIsError Json :=
  (c.requestOf method endpoint params data, handle_response resp)

/-- How `requests` merges the session's default params into each request's
params, the request-level value winning per key (`Session.merge_setting`):
observationally, a key resolves to the request-level binding when present,
otherwise to the session default. -/
def mergedLookup (sessionParams reqParams : Params) (k : String) : Option ParamVal :=
  match lookupP k reqParams with
  | some v => some v
  | none => lookupP k sessionParams

/-! ## The endpoint methods (src/main.py lines 133-499)

Each method is embedded as the `make_request` call it performs, so its
value is the (request, result) pair.  Optional arguments that Python
defaults are taken explicitly; dedicated wrappers below record the default
each call site receives when the caller omits the argument. -/

/-- Embedding of `get_market_stats` (lines 133-147). -/
def SteamAPIs.get_market_stats (c : SteamAPIs) (resp : HttpResponse) :
    HttpRequest × Except SteamAPIsError Json :=
  c.make_request "GET" "/market/stats" [] none resp

/-- Embedding of `get_inventory` (lines 149-176).  The source guards each optional
parameter with Python truthiness (`if count:` / `if start_assetid:`), so
`0` and `''` are dropped exactly like `None`. -/
def SteamAPIs.get_inventory (c : SteamAPIs) (steam_id : String)
    (app_id context_id : Int) (count : Option Int) (start_assetid : Option String)
    (resp : HttpResponse) : HttpRequest × Except SteamAPIsError Json :=
  let endpoint := "/steam/inventory/" ++ steam_id ++ "/" ++ toString app_id ++
    "/" ++ toString context_id
  let params : Params :=
    (match count with
     | some n => if n = 0 then [] else [("count", .int n)]
     | none => []) ++
    (match start_assetid with
     | some s => if s = "" then [] else [("start_assetid", .str s)]
     | none => [])
  c.make_request "GET" endpoint params none resp

/-- Embedding of `get_items_for_app` (lines 178-212).  `format` is guarded by Python
truthiness; when it is sent, `compact_value` is sent alongside it.  The
response payload is returned exactly as `_make_request` produced it — the
method performs no reshaping of its own. -/
def SteamAPIs.get_items_for_app (c : SteamAPIs) (app_id : Int)
    (format : Option String) (compact_value : String) (resp : HttpResponse) :
    HttpRequest × Except SteamAPIsError Json :=
  let endpoint := "/market/items/" ++ toString app_id
  let params : Params :=
    match format with
    | some f => if f = "" then [] else [("format", .str f), ("compact_value", .str compact_value)]
    | none => []
  c.make_request "GET" endpoint params none resp

/-- Embedding of `get_all_cards` (lines 214-228). -/
def SteamAPIs.get_all_cards (c : SteamAPIs) (resp : HttpResponse) :
    HttpRequest × Except SteamAPIsError Json :=
  c.make_request "GET" "/market/items/cards" [] none resp

/-- Embedding of `get_item_details` (lines 230-253): the item name is percent-encoded
with `quote(market_hash_name, safe='')` into the path. -/
def SteamAPIs.get_item_details (c : SteamAPIs) (app_id : Int)
    (market_hash_name : String) (median_history_days : Int) (resp : HttpResponse) :
    HttpRequest × Except SteamAPIsError Json :=
  let encoded_name := pyQuote market_hash_name
  let endpoint := "/market/item/" ++ toString app_id ++ "/" ++ encoded_name
  c.make_request "GET" endpoint [("median_history_days", .int median_history_days)] none resp

/-- Embedding of `get_price_history` (lines 255-275): `days` is always placed in the
params dict, whatever its value. -/
def SteamAPIs.get_price_history (c : SteamAPIs) (app_id : Int)
    (market_hash_name : String) (days : Int) (resp : HttpResponse) :
    HttpRequest × Except SteamAPIsError Json :=
  let encoded_name := pyQuote market_hash_name
  let endpoint := "/market/history/" ++ toString app_id ++ "/" ++ encoded_name
  c.make_request "GET" endpoint [("days", .int days)] none resp

/-- Embedding of `get_user_profile` (lines 277-291). -/
def SteamAPIs.get_user_profile (c : SteamAPIs) (steam_id : String)
    (resp : HttpResponse) : HttpRequest × Except SteamAPIsError Json :=
  c.make_request "GET" ("/steam/user/" ++ steam_id) [] none resp

/-- Embedding of `get_market_search` (lines 293-322): all five parameters are always
placed in the params dict. -/
def SteamAPIs.get_market_search (c : SteamAPIs) (app_id : Int) (query : String)
    (start count : Int) (sort_by sort_order : String) (resp : HttpResponse) :
    HttpRequest × Except SteamAPIsError Json :=
  let endpoint := "/market/search/" ++ toString app_id
  let params : Params :=
    [("query", .str query), ("start", .int start), ("count", .int count),
     ("sort_by", .str sort_by), ("sort_order", .str sort_order)]
  c.make_request "GET" endpoint params none resp

/-- Embedding of `get_item_listings` (lines 324-348). -/
def SteamAPIs.get_item_listings (c : SteamAPIs) (app_id : Int)
    (market_hash_name : String) (start count : Int) (resp : HttpResponse) :
    HttpRequest × Except SteamAPIsError Json :=
  let encoded_name := pyQuote market_hash_name
  let endpoint := "/market/listings/" ++ toString app_id ++ "/" ++ encoded_name
  c.make_request "GET" endpoint [("start", .int start), ("count", .int count)] none resp

/-- Embedding of `get_item_orders` (lines 350-367). -/
def SteamAPIs.get_item_orders (c : SteamAPIs) (app_id : Int)
    (market_hash_name : String) (resp : HttpResponse) :
    HttpRequest × Except SteamAPIsError Json :=
  let encoded_name := pyQuote market_hash_name
  let endpoint := "/market/orders/" ++ toString app_id ++ "/" ++ encoded_name
  c.make_request "GET" endpoint [] none resp

/-- Embedding of `get_popular_items` (lines 369-386). -/
def SteamAPIs.get_popular_items (c : SteamAPIs) (app_id count : Int)
    (resp : HttpResponse) : HttpRequest × Except SteamAPIsError Json :=
  c.make_request "GET" ("/market/popular/" ++ toString app_id)
    [("count", .int count)] none resp

/-- Embedding of `get_recent_items` (lines 388-405). -/
def SteamAPIs.get_recent_items (c : SteamAPIs) (app_id count : Int)
    (resp : HttpResponse) : HttpRequest × Except SteamAPIsError Json :=
  c.make_request "GET" ("/market/recent/" ++ toString app_id)
    [("count", .int count)] none resp

/-- Embedding of `get_price_overview` (lines 407-425): a POST whose JSON body carries
the item names. -/
def SteamAPIs.get_price_overview (c : SteamAPIs) (app_id : Int)
    (market_hash_names : List String) (resp : HttpResponse) :
    HttpRequest × Except SteamAPIsError Json :=
  let data := Json.obj [("items", .arr (market_hash_names.map .str))]
  c.make_request "POST" ("/market/prices/" ++ toString app_id) [] (some data) resp

/-- Embedding of `get_float_value` (lines 427-443). -/
def SteamAPIs.get_float_value (c : SteamAPIs) (inspect_link : String)
    (resp : HttpResponse) : HttpRequest × Except SteamAPIsError Json :=
  c.make_request "GET" "/market/float" [("inspect_link", .str inspect_link)] none resp

/-- Embedding of `get_app_details` (lines 445-462). -/
def SteamAPIs.get_app_details (c : SteamAPIs) (app_id : Int)
    (resp : HttpResponse) : HttpRequest × Except SteamAPIsError Json :=
  c.make_request "GET" ("/market/app/" ++ toString app_id) [] none resp

/-- Embedding of `get_all_apps` (lines 464-479). -/
def SteamAPIs.get_all_apps (c : SteamAPIs) (resp : HttpResponse) :
    HttpRequest × Except SteamAPIsError Json :=
  c.make_request "GET" "/market/apps" [] none resp

/-- Embedding of `get_inventory_value` (lines 481-499). -/
def SteamAPIs.get_inventory_value (c : SteamAPIs) (steam_id : String)
    (app_id context_id : Int) (resp : HttpResponse) :
    HttpRequest × Except SteamAPIsError Json :=
  let endpoint := "/steam/inventory/value/" ++ steam_id ++ "/" ++ toString app_id ++
    "/" ++ toString context_id
  c.make_request "GET" endpoint [] none resp

/-- Calling `get_price_history` without `days`: Python substitutes the
declared default `days=30` (src/main.py line 256). -/
def SteamAPIs.get_price_history_omitting_days (c : SteamAPIs) (app_id : Int)
    (market_hash_name : String) (resp : HttpResponse) :
    HttpRequest × Except SteamAPIsError Json :=
  c.get_price_history app_id market_hash_name 30 resp

/-- Calling `get_market_search` with only the required arguments: Python
substitutes the declared defaults `start=0, count=100, sort_by='popular',
sort_order='desc'` (src/main.py lines 293-295). -/
def SteamAPIs.get_market_search_omitting_optionals (c : SteamAPIs)
    (app_id : Int) (query : String) (resp : HttpResponse) :
    HttpRequest × Except SteamAPIsError Json :=
  c.get_market_search app_id query 0 100 "popular" "desc" resp

/-! ## Session release (close / context-manager exit) -/

/-- Embedding of `requests.Session.close`, modelled from the behavior of
requests/urllib3: closing releases the pooled transport resources it owns
when the session is open, and finds nothing to release on a session that
was already closed (urllib3's pool `clear` is idempotent).  Returns the new
session state together with the number of transport releases performed. -/
def Session.close (s : Session) : Session × Nat :=
  if s.opened then ({ s with opened := false }, 1) else (s, 0)

/-- Embedding of `SteamAPIs.close` (src/main.py lines 501-509): calls
`self.session.close()` unconditionally. -/
def SteamAPIs.close (c : SteamAPIs) : SteamAPIs × Nat :=
  let r := c.session.close
  ({ c with session := r.1 }, r.2)

/-- Embedding of `SteamAPIs.__exit__` (src/main.py lines 515-517): calls `self.close()`. -/
def SteamAPIs.exitCM (c : SteamAPIs) : SteamAPIs × Nat :=
  c.close

/-! ## The compact reshaping the spec describes -/

/-- Dict lookup on JSON object fields. -/
def lookupJ (k : String) : List (String × Json) → Option Json
  | [] => none
  | (k₁, v) :: rest => if k = k₁ then some v else lookupJ k rest

/-- Modelled from the spec: the documented compact-format reshaping that
`get_items_for_app` is claimed to perform client-side — turn the full item
array into a name→value mapping keyed by each item's `market_hash_name`,
taking the caller-selected price field, and mapping an item that lacks that
field to an explicit absent marker (`null`), not zero.  Defined here only to
compare against what the code actually returns. -/
def reshapeCompactSpec (compact_value : String) (payload : Json) : Json :=
  match payload with
  | .arr items =>
    .obj (items.map fun item =>
      match item with
      | .obj fields =>
        ((match lookupJ "market_hash_name" fields with
          | some (.str name) => name
          | _ => ""),
         (match lookupJ compact_value fields with
          | some v => v
          | none => Json.null))
      | _ => ("", Json.null))
  | other => other

/-! ## All endpoint calls, enumerated

Used to state the session-wide API-key invariant over every method of the
client at once. -/

inductive EndpointCall where
  | market_stats : EndpointCall
  | inventory (steam_id : String) (app_id context_id : Int)
      (count : Option Int) (start_assetid : Option String) : EndpointCall
  | items_for_app (app_id : Int) (format : Option String)
      (compact_value : String) : EndpointCall
  | all_cards : EndpointCall
  | item_details (app_id : Int) (market_hash_name : String)
      (median_history_days : Int) : EndpointCall
  | price_history (app_id : Int) (market_hash_name : String)
      (days : Int) : EndpointCall
  | user_profile (steam_id : String) : EndpointCall
  | market_search (app_id : Int) (query : String) (start count : Int)
      (sort_by sort_order : String) : EndpointCall
  | item_listings (app_id : Int) (market_hash_name : String)
      (start count : Int) : EndpointCall
  | item_orders (app_id : Int) (market_hash_name : String) : EndpointCall
  | popular_items (app_id count : Int) : EndpointCall
  | recent_items (app_id count : Int) : EndpointCall
  | price_overview (app_id : Int) (market_hash_names : List String) : EndpointCall
  | float_value (inspect_link : String) : EndpointCall
  | app_details (app_id : Int) : EndpointCall
  | all_apps : EndpointCall
  | inventory_value (steam_id : String) (app_id context_id : Int) : EndpointCall

/-- Dispatch an enumerated call to the corresponding client method. -/
def dispatch (c : SteamAPIs) (call : EndpointCall) (resp : HttpResponse) :
    HttpRequest × Except SteamAPIsError Json :=
  match call with
  | .market_stats => c.get_market_stats resp
  | .inventory sid aid cid cnt sa => c.get_inventory sid aid cid cnt sa resp
  | .items_for_app aid fmt cv => c.get_items_for_app aid fmt cv resp
  | .all_cards => c.get_all_cards resp
  | .item_details aid n d => c.get_item_details aid n d resp
  | .price_history aid n d => c.get_price_history aid n d resp
  | .user_profile sid => c.get_user_profile sid resp
  | .market_search aid q st cnt sb so => c.get_market_search aid q st cnt sb so resp
  | .item_listings aid n st cnt => c.get_item_listings aid n st cnt resp
  | .item_orders aid n => c.get_item_orders aid n resp
  | .popular_items aid cnt => c.get_popular_items aid cnt resp
  | .recent_items aid cnt => c.get_recent_items aid cnt resp
  | .price_overview aid ns => c.get_price_overview aid ns resp
  | .float_value l => c.get_float_value l resp
  | .app_details aid => c.get_app_details aid resp
  | .all_apps => c.get_all_apps resp
  | .inventory_value sid aid cid => c.get_inventory_value sid aid cid resp

/-! ## Concrete fixtures for witnesses and counterexamples -/

/-- The client produced by `SteamAPIs.init "KEY"` with the default base URL
and timeout. -/
def testClient : SteamAPIs :=
  { base_url := "https://api.steamapis.com"
    timeout := 30
    session := { params := [("api_key", .str "KEY")], opened := true } }

/-- The client produced by `SteamAPIs.init "KEY"` with a base URL that
carries a path component '/v1'. -/
def v1Client : SteamAPIs :=
  { base_url := "https://api.steamapis.com/v1"
    timeout := 30
    session := { params := [("api_key", .str "KEY")], opened := true } }

/-- A successful response carrying an arbitrary JSON payload. -/
def okResp (j : Json) : HttpResponse :=
  { status_code := 200, body := .ok j }

/-- The UTF-8 bytes of the item name "AK-47 | Redline (Field-Tested)",
which contains '|', spaces and parentheses. -/
def itemNameBytes : List Nat :=
  [65, 75, 45, 52, 55, 32, 124, 32, 82, 101, 100, 108, 105, 110, 101, 32,
   40, 70, 105, 101, 108, 100, 45, 84, 101, 115, 116, 101, 100, 41]

/-- A full-format payload in which the second item lacks the requested
price field "safe". -/
def compactPayload : Json :=
  .arr [.obj [("market_hash_name", .str "AK-47 | Redline (Field-Tested)"),
              ("safe", .num 1200)],
        .obj [("market_hash_name", .str "AWP | Dragon Lore (Factory New)")]]

/-! ## Helper lemmas -/

theorem hexVal_hexDigit (d : Nat) (h : d < 16) : hexVal (hexDigit d) = some d := by
  unfold hexVal hexDigit
  by_cases h10 : d < 10
  · rw [if_pos h10, if_pos (by omega)]
    congr 1
    omega
  · rw [if_neg h10, if_neg (by omega), if_pos (by omega)]
    congr 1
    omega

theorem unquoteBytes_cons_of_ne (b : Nat) (l : List Nat) (h : b ≠ 37) :
    unquoteBytes (b :: l) = b :: unquoteBytes l := by
  cases l with
  | nil => simp [unquoteBytes, h]
  | cons x xs => cases xs <;> simp [unquoteBytes, h]

theorem isSafeByte_ne_37 (b : Nat) (h : isSafeByte b) : b ≠ 37 := by
  unfold isSafeByte at h
  omega

/-- Decoding inverts encoding, byte by byte. -/
theorem unquoteBytes_quoteBytes (bs : List Nat) (h : ∀ b ∈ bs, b < 256) :
    unquoteBytes (quoteBytes bs) = bs := by
  induction bs with
  | nil => rfl
  | cons b rest ih =>
    have hb : b < 256 := h b (List.mem_cons_self b rest)
    have hrest : ∀ x ∈ rest, x < 256 := fun x hx => h x (List.mem_cons_of_mem b hx)
    by_cases hs : isSafeByte b
    · rw [quoteBytes, if_pos hs, unquoteBytes_cons_of_ne b _ (isSafeByte_ne_37 b hs),
        ih hrest]
    · rw [quoteBytes, if_neg hs]
      have h₁ : hexVal (hexDigit (b / 16)) = some (b / 16) :=
        hexVal_hexDigit _ (by omega)
      have h₂ : hexVal (hexDigit (b % 16)) = some (b % 16) :=
        hexVal_hexDigit _ (by omega)
      simp only [unquoteBytes, if_pos rfl, h₁, h₂]
      have hdm : 16 * (b / 16) + b % 16 = b := by omega
      rw [hdm, ih hrest]
      simp

theorem splitScheme_append : ∀ (l pre post : List Char),
    splitScheme l = some (pre, post) → l = pre ++ ':' :: '/' :: '/' :: post := by
  intro l
  induction l with
  | nil =>
    intro pre post h
    simp [splitScheme] at h
  | cons c rest ih =>
    intro pre post h
    rw [splitScheme] at h
    by_cases hc : c = ':' ∧ rest.take 2 = ['/', '/']
    · rw [if_pos hc] at h
      simp only [Option.some.injEq, Prod.mk.injEq] at h
      obtain ⟨hpre, hpost⟩ := h
      subst hpre
      subst hpost
      obtain ⟨hc1, hc2⟩ := hc
      subst hc1
      simp only [List.nil_append, List.cons.injEq, true_and]
      conv_lhs => rw [← List.take_append_drop 2 rest]
      rw [hc2]
      rfl
    · rw [if_neg hc] at h
      cases hsp : splitScheme rest with
      | none =>
        rw [hsp] at h
        simp at h
      | some pp =>
        obtain ⟨pre₁, post₁⟩ := pp
        rw [hsp] at h
        simp only [Option.some.injEq, Prod.mk.injEq] at h
        obtain ⟨hpre, hpost⟩ := h
        subst hpre
        subst hpost
        simp only [List.cons_append, List.cons.injEq, true_and]
        exact ih pre₁ post₁ hsp

theorem takeWhile_of_forall {α : Type} {p : α → Bool} :
    ∀ (l : List α), (∀ x ∈ l, p x = true) → l.takeWhile p = l := by
  intro l
  induction l with
  | nil => intro _; rfl
  | cons x xs ih =>
    intro h
    simp [List.takeWhile_cons, h x (List.mem_cons_self x xs),
      ih (fun y hy => h y (List.mem_cons_of_mem x hy))]

theorem lookupP_append (k : String) (a b : Params) :
    lookupP k (a ++ b) =
      match lookupP k a with
      | some v => some v
      | none => lookupP k b := by
  induction a with
  | nil => rfl
  | cons kv rest ih =>
    obtain ⟨k₁, v⟩ := kv
    by_cases hk : k = k₁
    · simp [lookupP, hk]
    · simp [lookupP, hk, ih]

theorem init_ok_session (api_key base_url : String) (timeout : Int)
    (c : SteamAPIs) (h : SteamAPIs.init api_key base_url timeout = .ok c) :
    c.session.params = [("api_key", .str api_key)] := by
  unfold SteamAPIs.init at h
  split at h
  · cases h
  · cases h
    rfl

/-! ## The claims -/

/-- C1 (counterexample): it is not true that every status outside 200-299
other than 429 raises the generic error: `raise_for_status` only raises for
400-599, so a 304 response with a valid JSON body — outside 2xx and not
429 — makes `_make_request` return the payload instead of raising. -/
theorem c1_counterexample :
    ¬(200 ≤ 304 ∧ 304 ≤ 299) ∧ (304 : Nat) ≠ 429 ∧
      handle_response { status_code := 304, body := .ok (Json.obj []) } =
        .ok (Json.obj []) := by
  refine ⟨by omega, by omega, ?_⟩
  rfl

/-- C1 (amended): for every response whose status lies in 400-599 and is
not 429, `_make_request` raises the generic `APIResponseError` wrapping the
status code — never returning a payload and never raising the rate-limit
error.  (Non-2xx statuses below 400, such as 304, are not raised on;
see the counterexample.) -/
theorem c1_amended (resp : HttpResponse) (h₄ : 400 ≤ resp.status_code)
    (h₆ : resp.status_code < 600) (h₉ : resp.status_code ≠ 429) :
    handle_response resp =
      .error (.apiResponseError (.httpError resp.status_code)) := by
  unfold handle_response
  rw [if_neg h₉, if_pos ⟨h₄, h₆⟩]

theorem c1_amended_witness :
    400 ≤ 404 ∧ 404 < 600 ∧ (404 : Nat) ≠ 429 ∧
      handle_response { status_code := 404, body := .malformed } =
        .error (.apiResponseError (.httpError 404)) :=
  ⟨by omega, by omega, by omega,
    c1_amended { status_code := 404, body := .malformed }
      (by decide) (by decide) (by decide)⟩

/-- C2 (counterexample): calling `get_price_history` without `days`, or
`get_market_search` without `start`, `count`, `sort_by`, `sort_order`, does
NOT leave those parameters out of the request: Python substitutes the
declared defaults and the methods always place them in the params dict. -/
theorem c2_counterexample :
    lookupP "days" ((testClient.get_price_history_omitting_days 730 "X"
        (okResp Json.null)).1.params) = some (.int 30) ∧
    lookupP "start" ((testClient.get_market_search_omitting_optionals 730 "ak"
        (okResp Json.null)).1.params) = some (.int 0) ∧
    lookupP "count" ((testClient.get_market_search_omitting_optionals 730 "ak"
        (okResp Json.null)).1.params) = some (.int 100) ∧
    lookupP "sort_by" ((testClient.get_market_search_omitting_optionals 730 "ak"
        (okResp Json.null)).1.params) = some (.str "popular") ∧
    lookupP "sort_order" ((testClient.get_market_search_omitting_optionals 730 "ak"
        (okResp Json.null)).1.params) = some (.str "desc") := by
  refine ⟨rfl, rfl, rfl, rfl, rfl⟩

/-- C2 (amended): `get_inventory` and `get_items_for_app` omit their
optional parameters when the caller leaves them unset, but
`get_price_history` always sends `days` and `get_market_search` always
sends `start`, `count`, `sort_by` and `sort_order`, carrying the declared
defaults (30; 0, 100, 'popular', 'desc') when the caller omits them. -/
theorem c2_amended (c : SteamAPIs) (steam_id : String)
    (app_id context_id : Int) (name query : String) (resp : HttpResponse) :
    lookupP "count"
      ((c.get_inventory steam_id app_id context_id none none resp).1.params) = none ∧
    lookupP "start_assetid"
      ((c.get_inventory steam_id app_id context_id none none resp).1.params) = none ∧
    lookupP "format"
      ((c.get_items_for_app app_id none "safe" resp).1.params) = none ∧
    lookupP "compact_value"
      ((c.get_items_for_app app_id none "safe" resp).1.params) = none ∧
    lookupP "days"
      ((c.get_price_history_omitting_days app_id name resp).1.params) = some (.int 30) ∧
    lookupP "start"
      ((c.get_market_search_omitting_optionals app_id query resp).1.params) = some (.int 0) ∧
    lookupP "count"
      ((c.get_market_search_omitting_optionals app_id query resp).1.params) = some (.int 100) ∧
    lookupP "sort_by"
      ((c.get_market_search_omitting_optionals app_id query resp).1.params) =
        some (.str "popular") ∧
    lookupP "sort_order"
      ((c.get_market_search_omitting_optionals app_id query resp).1.params) =
        some (.str "desc") := by
  refine ⟨rfl, rfl, rfl, rfl, rfl, rfl, rfl, rfl, rfl⟩

/-- C4 (counterexample): with `format='compact'` the client does not
reshape: a full item array whose second item lacks the requested "safe"
field is returned exactly as received, and it differs from the name→value
mapping that the claimed client-side reshaping would produce. -/
theorem c4_counterexample :
    (testClient.get_items_for_app 730 (some "compact") "safe"
        (okResp compactPayload)).2 = .ok compactPayload ∧
    reshapeCompactSpec "safe" compactPayload ≠ compactPayload := by
  refine ⟨rfl, ?_⟩
  intro h
  exact Json.noConfusion h

/-- C4 (amended): with `format='compact'` the client forwards
`format=compact` and `compact_value=<field>` as query parameters and
returns the server's payload unchanged; the reshaping — including mapping
a missing price field to an absent marker — is the server's, not the
client's. -/
theorem c4_amended (c : SteamAPIs) (app_id : Int) (cv : String) (p : Json) :
    (c.get_items_for_app app_id (some "compact") cv (okResp p)).2 = .ok p ∧
    lookupP "format"
      ((c.get_items_for_app app_id (some "compact") cv (okResp p)).1.params) =
        some (.str "compact") ∧
    lookupP "compact_value"
      ((c.get_items_for_app app_id (some "compact") cv (okResp p)).1.params) =
        some (.str cv) := by
  refine ⟨rfl, rfl, rfl⟩

/-- C5: a response with status 429 raises the rate-limit error and never
the generic error, for every body — parsed or malformed alike — because
the 429 check precedes both `raise_for_status` and the body parse. -/
theorem c5_rate_limit (b : BodyParse) :
    handle_response { status_code := 429, body := b } =
      .error (.rateLimitError "Rate limit exceeded. Please try again later.") := by
  rfl

/-- C6: constructing the client with an empty API key raises `APIKeyError`
for every base URL and timeout; the error branch carries no client value,
so no session is created and no network activity can occur. -/
theorem c6_empty_key (base_url : String) (timeout : Int) :
    SteamAPIs.init "" base_url timeout =
      .error (.apiKeyError "API key is required") := by
  rfl

/-- C7: percent-encoding round-trips — for every item name (a Python str
embedded as its UTF-8 byte sequence), unquoting the `quote(·, safe='')`
encoding used by `get_item_details`, `get_price_history`,
`get_item_listings` and `get_item_orders` returns the original bytes. -/
theorem c7_quote_roundtrip (bs : List Nat) (h : ∀ b ∈ bs, b < 256) :
    unquoteBytes (quoteBytes bs) = bs :=
  unquoteBytes_quoteBytes bs h

theorem c7_quote_roundtrip_witness :
    (∀ b ∈ itemNameBytes, b < 256) ∧
      unquoteBytes (quoteBytes itemNameBytes) = itemNameBytes :=
  ⟨by decide, c7_quote_roundtrip itemNameBytes (by decide)⟩

/-- C9: on a client whose session is open, the first `close` releases the
transport exactly once; a second `close`, or a context-manager `__exit__`
after `close`, performs zero further releases and leaves the client
unchanged, so the total over both calls is one release. -/
theorem c9_close_idempotent (c : SteamAPIs) (h : c.session.opened = true) :
    c.close.2 = 1 ∧ c.close.1.close.2 = 0 ∧ c.close.1.exitCM.2 = 0 ∧
      c.close.2 + c.close.1.close.2 = 1 ∧
      c.close.1.close.1 = c.close.1 ∧ c.close.1.exitCM.1 = c.close.1 := by
  simp [SteamAPIs.close, SteamAPIs.exitCM, Session.close, h]

theorem c9_close_idempotent_witness :
    testClient.session.opened = true ∧
      (testClient.close.2 = 1 ∧ testClient.close.1.close.2 = 0 ∧
        testClient.close.1.exitCM.2 = 0 ∧
        testClient.close.2 + testClient.close.1.close.2 = 1 ∧
        testClient.close.1.close.1 = testClient.close.1 ∧
        testClient.close.1.exitCM.1 = testClient.close.1) :=
  ⟨rfl, c9_close_idempotent testClient rfl⟩

/-- C10: `get_inventory` drops an optional parameter whenever its value is
falsy, not only when it is `None`: `count=0` and `start_assetid=''`
produce exactly the request of omitting both, with no 'count' or
'start_assetid' query parameter. -/
theorem c10_falsy_omitted (c : SteamAPIs) (steam_id : String)
    (app_id context_id : Int) (resp : HttpResponse) :
    c.get_inventory steam_id app_id context_id (some 0) (some "") resp =
      c.get_inventory steam_id app_id context_id none none resp ∧
    lookupP "count"
      ((c.get_inventory steam_id app_id context_id (some 0) (some "") resp).1.params) = none ∧
    lookupP "start_assetid"
      ((c.get_inventory steam_id app_id context_id (some 0) (some "") resp).1.params) = none := by
  refine ⟨rfl, rfl, rfl⟩

theorem mk_append (a b : String) : String.mk (a.data ++ b.data) = a ++ b := rfl

/-- C3 (counterexample): the request URL is not `base_url + path` in
general: with stored base URL 'https://api.steamapis.com/v1', `urljoin`
discards the '/v1' path component, so the URL `_make_request` targets
differs from the concatenation. -/
theorem c3_counterexample :
    SteamAPIs.init "KEY" "https://api.steamapis.com/v1" 30 = .ok v1Client ∧
    (v1Client.requestOf "GET" "/market/stats" [] none).url =
      "https://api.steamapis.com/market/stats" ∧
    v1Client.base_url ++ "/market/stats" =
      "https://api.steamapis.com/v1/market/stats" ∧
    ("https://api.steamapis.com/market/stats" : String) ≠
      "https://api.steamapis.com/v1/market/stats" := by
  refine ⟨by rfl, by decide, by decide, by decide⟩

/-- C3 (amended): `_make_request` targets `urljoin(base_url, path)` with
the configured timeout.  This coincides with the concatenation
`base_url + path` exactly when the stored base URL is `scheme://netloc`
with an empty path — as the default base URL is — and the endpoint is an
absolute-path reference (every endpoint the client builds starts with a
single '/').  For a base URL carrying a path component, urljoin discards
that path: see the counterexample. -/
theorem c3_amended (c : SteamAPIs) (method endpoint : String)
    (params : Params) (data : Option Json) (scheme netloc : List Char)
    (hsplit : splitScheme c.base_url.data = some (scheme, netloc))
    (hn : ∀ ch ∈ netloc, ch ≠ '/')
    (ep₀ : List Char) (hep : endpoint.data = '/' :: ep₀)
    (hh : ep₀.head? ≠ some '/') :
    (c.requestOf method endpoint params data).url = c.base_url ++ endpoint ∧
    (c.requestOf method endpoint params data).timeout = c.timeout := by
  refine ⟨?_, rfl⟩
  have hbase : c.base_url.data = scheme ++ ':' :: '/' :: '/' :: netloc :=
    splitScheme_append _ _ _ hsplit
  have htake : netloc.takeWhile (fun ch => ch != '/') = netloc :=
    takeWhile_of_forall netloc (fun x hx => by simp [hn x hx])
  have hjoin : urljoinL c.base_url.data ('/' :: ep₀) =
      c.base_url.data ++ ('/' :: ep₀) := by
    unfold urljoinL
    rw [hsplit]
    cases ep₀ with
    | nil =>
      dsimp only
      rw [htake, hbase]
      simp
    | cons c₂ l₂ =>
      have hc₂ : c₂ ≠ '/' := by
        intro hcc
        apply hh
        rw [hcc]
        rfl
      dsimp only
      rw [if_neg hc₂, htake, hbase]
      simp
  calc (c.requestOf method endpoint params data).url
      = String.mk (urljoinL c.base_url.data endpoint.data) := rfl
    _ = String.mk (c.base_url.data ++ endpoint.data) := by rw [hep, hjoin]
    _ = c.base_url ++ endpoint := mk_append c.base_url endpoint

theorem c3_amended_witness :
    (testClient.requestOf "GET" "/market/stats" [] none).url =
      testClient.base_url ++ "/market/stats" ∧
    (testClient.requestOf "GET" "/market/stats" [] none).timeout =
      testClient.timeout :=
  c3_amended testClient "GET" "/market/stats" [] none
    "https".data "api.steamapis.com".data (by decide) (by decide)
    "market/stats".data (by decide) (by decide)

/-- C8: every request issued by any endpoint method of a constructed
client resolves the 'api_key' query parameter to the key given at
construction: no method ever puts 'api_key' in its own params, so the
session-default binding set in `__init__` survives the request-level merge
on every call. -/
theorem c8_api_key_invariant (api_key base_url : String) (timeout : Int)
    (c : SteamAPIs) (h : SteamAPIs.init api_key base_url timeout = .ok c)
    (call : EndpointCall) (resp : HttpResponse) :
    mergedLookup c.session.params ((dispatch c call resp).1.params) "api_key" =
      some (.str api_key) := by
  have hsession := init_ok_session api_key base_url timeout c h
  have hnone : lookupP "api_key" ((dispatch c call resp).1.params) = none := by
    cases call with
    | inventory sid aid cid cnt sa =>
      rcases cnt with _ | n <;> rcases sa with _ | s
      · rfl
      · by_cases h₂ : s = ""
        · subst h₂
          rfl
        · show lookupP "api_key"
            (([] : Params) ++
              (if s = "" then [] else [("start_assetid", ParamVal.str s)])) = none
          rw [if_neg h₂]
          rfl
      · by_cases h₁ : n = 0
        · subst h₁
          rfl
        · show lookupP "api_key"
            ((if n = 0 then [] else [("count", ParamVal.int n)]) ++
              ([] : Params)) = none
          rw [if_neg h₁]
          rfl
      · by_cases h₁ : n = 0
        · subst h₁
          by_cases h₂ : s = ""
          · subst h₂
            rfl
          · show lookupP "api_key"
              (([] : Params) ++
                (if s = "" then [] else [("start_assetid", ParamVal.str s)])) = none
            rw [if_neg h₂]
            rfl
        · by_cases h₂ : s = ""
          · subst h₂
            show lookupP "api_key"
              ((if n = 0 then [] else [("count", ParamVal.int n)]) ++
                ([] : Params)) = none
            rw [if_neg h₁]
            rfl
          · show lookupP "api_key"
              ((if n = 0 then [] else [("count", ParamVal.int n)]) ++
                (if s = "" then [] else [("start_assetid", ParamVal.str s)])) = none
            rw [if_neg h₁, if_neg h₂]
            rfl
    | items_for_app aid fmt cv =>
      rcases fmt with _ | f
      · rfl
      · by_cases h₁ : f = ""
        · subst h₁
          rfl
        · show lookupP "api_key"
            (if f = "" then []
             else [("format", ParamVal.str f), ("compact_value", ParamVal.str cv)]) = none
          rw [if_neg h₁]
          rfl
    | market_stats => rfl
    | all_cards => rfl
    | item_details aid nm d => rfl
    | price_history aid nm d => rfl
    | user_profile sid => rfl
    | market_search aid q st cnt sb so => rfl
    | item_listings aid nm st cnt => rfl
    | item_orders aid nm => rfl
    | popular_items aid cnt => rfl
    | recent_items aid cnt => rfl
    | price_overview aid ns => rfl
    | float_value l => rfl
    | app_details aid => rfl
    | all_apps => rfl
    | inventory_value sid aid cid => rfl
  unfold mergedLookup
  rw [hnone, hsession]
  rfl

theorem c8_api_key_invariant_witness :
    SteamAPIs.init "KEY" "https://api.steamapis.com" 30 = .ok testClient ∧
    mergedLookup testClient.session.params
      ((dispatch testClient .market_stats (okResp Json.null)).1.params)
      "api_key" = some (.str "KEY") :=
  ⟨by rfl,
    c8_api_key_invariant "KEY" "https://api.steamapis.com" 30 testClient
      (by rfl) .market_stats (okResp Json.null)⟩
